import Mathlib

/-!
Shallow embedding of `config.go` from the cgt/acme repository: local on-disk
identity material for an ACME client (account record persistence, private-key
lifecycle, certificate decoding, account summarization).

The filesystem is modelled as a flat association list from paths to file
states.  A file state is either absent (with a flag saying whether creation at
that location would succeed, modelling directory write permission), present
but unreadable/unwritable (permission denied), or present with content.

File content is modelled structurally: a byte sequence either contains no PEM
envelope block, contains a first PEM block followed by remaining bytes, or is
the JSON serialization of an account record.  DER payloads inside a PEM block
are modelled as a tagged union (RSA key / EC key / certificate / junk), which
makes the x509 parse functions executable and faithful to the fact that
PKCS1 marshalling followed by PKCS1 parsing is the identity on keys.
-/

namespace Acme

/-- File-name constant `accountFile` from config.go. -/
def accountFile : String := "account.json"

/-- File-name constant `accountKey` from config.go. -/
def accountKey : String := "account.key"

/-- PEM type tag for RSA private keys. -/
def rsaPrivateKey : String := "RSA PRIVATE KEY"

/-- PEM type tag for EC private keys. -/
def ecPrivateKey : String := "EC PRIVATE KEY"

/-- PEM type tag for certificates. -/
def x509PublicKey : String := "CERTIFICATE"

/-- An RSA private key: modulus, public exponent, private exponent and the
prime factors (the components PKCS1 serializes). -/
structure RSAPriv where
  n : Nat
  e : Nat
  d : Nat
  p : Nat
  q : Nat
deriving DecidableEq, Repr

/-- An elliptic-curve private key (decodable but never encoded by this core). -/
structure ECPriv where
  curveName : String
  d : Nat
deriving DecidableEq, Repr

/-- A parsed certificate (no chain or trust validation is modelled). -/
structure Cert where
  raw : List Nat
deriving DecidableEq, Repr

/-- DER payload of a PEM block, as a tagged union: the x509 parse functions
succeed exactly on the matching tag. -/
inductive DER where
  | rsa (k : RSAPriv)
  | ec (k : ECPriv)
  | cert (c : Cert)
  | junk (raw : List Nat)
deriving DecidableEq, Repr

/-- A decoded PEM block: type tag plus DER payload (`pem.Block`). -/
structure PemBlock where
  tag : String
  bytes : DER
deriving DecidableEq, Repr

/-- Exported fields of `userConfig`: the embedded acme.Account fields plus the
CA discovery URL.  The key is stored separately and never serialized. -/
structure AccountData where
  URI : String
  Contact : List String
  AgreedTerms : String
  CurrentTerms : String
  CA : String
deriving DecidableEq, Repr

/-- Content of a file, modelled structurally: raw bytes with no PEM block,
a first PEM block followed by the remaining bytes, or the JSON serialization
of an account record. -/
inductive Content where
  | junk (raw : List Nat)
  | pemBlock (b : PemBlock) (rest : Content)
  | jsonAccount (a : AccountData)
deriving DecidableEq, Repr

/-- A `crypto.Signer` as returned by readKey: RSA or EC private key. -/
inductive Signer where
  | rsa (k : RSAPriv)
  | ec (k : ECPriv)
deriving DecidableEq, Repr

/-- Error taxonomy of the embedded code. -/
inductive Err where
  | notFound (path : String)
  | permission (path : String)
  | format (path : String)
  | unsupported (tag : String)
  | parseX509
  | parseJSON
deriving DecidableEq, Repr

/-- `os.IsNotExist`: true exactly on the not-found error. -/
def isNotExist : Err → Bool
  | .notFound _ => true
  | _ => false

/-- State of one path in the filesystem.  `absent canCreate`: no file exists;
`canCreate` says whether creating a file there would succeed (directory write
permission).  `denied`: a file exists but cannot be read or written.
`file`: a readable, writable file with the given content. -/
inductive FileState where
  | absent (canCreate : Bool)
  | denied
  | file (data : Content)
deriving DecidableEq, Repr

/-- The filesystem: an association list from paths to file states; paths not
listed are absent and creatable. -/
abbrev FS := List (String × FileState)

/-- Look up the state of a path; unlisted paths are absent and creatable. -/
def lookupFS : FS → String → FileState
  | [], _ => .absent true
  | (p, st) :: rest, path => if p = path then st else lookupFS rest path

/-- Store content at a path (create or truncate). -/
def setFS (fs : FS) (path : String) (c : Content) : FS :=
  (path, .file c) :: fs

/-- `ioutil.ReadFile`: not-found on an absent path, permission error on a
denied path, otherwise the content. -/
def readFileFS (fs : FS) (path : String) : Except Err Content :=
  match lookupFS fs path with
  | .absent _ => .error (.notFound path)
  | .denied => .error (.permission path)
  | .file c => .ok c

/-- Whether `os.OpenFile(path, O_WRONLY|O_CREATE|O_TRUNC, 0600)` succeeds. -/
def openForWrite (fs : FS) (path : String) : Bool :=
  match lookupFS fs path with
  | .absent canCreate => canCreate
  | .denied => false
  | .file _ => true

/-- Write content to a path (create or replace); fails with a permission
error when the path cannot be opened for writing. -/
def writeFileFS (fs : FS) (path : String) (c : Content) : Option Err × FS :=
  if openForWrite fs path then (none, setFS fs path c)
  else (some (.permission path), fs)

/-- `pem.Decode`: the first PEM block of the input, if any. -/
def pemDecode : Content → Option PemBlock
  | .pemBlock b _ => some b
  | _ => none

/-- `pem.Encode` of a single block into a fresh file's content. -/
def pemEncodeOne (b : PemBlock) : Content := .pemBlock b (.junk [])

/-- `x509.ParsePKCS1PrivateKey`: succeeds exactly on RSA DER payloads. -/
def parsePKCS1PrivateKey : DER → Except Err RSAPriv
  | .rsa k => .ok k
  | _ => .error .parseX509

/-- `x509.ParseECPrivateKey`: succeeds exactly on EC DER payloads. -/
def parseECPrivateKey : DER → Except Err ECPriv
  | .ec k => .ok k
  | _ => .error .parseX509

/-- `x509.ParseCertificate`: succeeds exactly on certificate DER payloads. -/
def parseCertificate : DER → Except Err Cert
  | .cert c => .ok c
  | _ => .error .parseX509

/-- `x509.MarshalPKCS1PrivateKey`. -/
def marshalPKCS1PrivateKey (k : RSAPriv) : DER := .rsa k

/-- In-memory `userConfig`: the serialized account fields plus the key that
is stored separately (absent when key loading failed). -/
structure UserConfig where
  account : AccountData
  key : Option Signer
deriving DecidableEq, Repr

/-- `json.MarshalIndent` of a `userConfig`: only exported fields are
serialized; the unexported key is dropped. -/
def jsonMarshalConfig (uc : UserConfig) : Content := .jsonAccount uc.account

/-- `json.Unmarshal` into a `userConfig`: succeeds exactly on account JSON. -/
def jsonUnmarshalConfig : Content → Except Err AccountData
  | .jsonAccount a => .ok a
  | _ => .error .parseJSON

/-- `filepath.Join` restricted to two elements, as used by config.go:
empty elements are dropped, otherwise joined with the separator. -/
def filepathJoin (a b : String) : String :=
  if a = "" then b else if b = "" then a else a ++ "/" ++ b

/-- Whether a path is absolute (begins with the separator). -/
def isAbsolutePath (s : String) : Bool := s.data.head? = some '/'

/-- The `init` function: configDir is the ACME_CONFIG environment value when
non-empty; otherwise the per-user default when the current-user lookup
succeeds (returning the home directory); otherwise it stays as the (empty)
environment value. -/
def initConfigDir (env : String) (homeDir : Option String) : String :=
  if env ≠ "" then env
  else
    match homeDir with
    | some h => filepathJoin (filepathJoin h ".config") "acme"
    | none => env

/-- The decoding stage of `readKey` after the file bytes are read: PEM-decode,
then dispatch on the block's type tag. -/
def decodeKeyBytes (path : String) (c : Content) : Except Err Signer :=
  match pemDecode c with
  | none => .error (.format path)
  | some d =>
    if d.tag = rsaPrivateKey then Except.map Signer.rsa (parsePKCS1PrivateKey d.bytes)
    else if d.tag = ecPrivateKey then Except.map Signer.ec (parseECPrivateKey d.bytes)
    else .error (.unsupported d.tag)

/-- `readKey`: read the file at `path` and decode a private RSA or EC key. -/
def readKey (fs : FS) (path : String) : Except Err Signer :=
  match readFileFS fs path with
  | .error e => .error e
  | .ok c => decodeKeyBytes path c

/-- The decoding stage of `readCrt` after the file bytes are read. -/
def decodeCrtBytes (path : String) (c : Content) : Except Err Cert :=
  match pemDecode c with
  | none => .error (.format path)
  | some d =>
    if d.tag ≠ x509PublicKey then .error (.unsupported d.tag)
    else parseCertificate d.bytes

/-- `readCrt`: read the file at `path` and decode a single certificate. -/
def readCrt (fs : FS) (path : String) : Except Err Cert :=
  match readFileFS fs path with
  | .error e => .error e
  | .ok c => decodeCrtBytes path c

/-- The serialization performed by `writeKey`: PKCS1-marshal the RSA key and
wrap it in a PEM block tagged `RSA PRIVATE KEY`. -/
def encodeKey (k : RSAPriv) : Content :=
  pemEncodeOne { tag := rsaPrivateKey, bytes := marshalPKCS1PrivateKey k }

/-- `writeKey`: open the file for writing (create/truncate, mode 0600) and
write the PEM-encoded key. -/
def writeKey (fs : FS) (path : String) (k : RSAPriv) : Option Err × FS :=
  writeFileFS fs path (encodeKey k)

/-- The generation arm of `anyKey` (lines 167-171): `rsa.GenerateKey` modelled
by its outcome `g`, followed by `writeKey`; a write failure is returned as
the operation's error. -/
def generateAndStore (g : Except Err RSAPriv) (fs : FS) (filename : String) :
    Except Err Signer × FS :=
  match g with
  | .error ge => (.error ge, fs)
  | .ok k =>
    match writeKey fs filename k with
    | (none, fs') => (.ok (.rsa k), fs')
    | (some we, fs') => (.error we, fs')

/-- `anyKey`: read the key from `filename`, or, when the read failed because
the file does not exist and `gen` is true, generate and persist a fresh key.
The resulting filesystem is returned alongside the outcome. -/
def anyKey (g : Except Err RSAPriv) (fs : FS) (filename : String) (gen : Bool) :
    Except Err Signer × FS :=
  match readKey fs filename with
  | .ok k => (.ok k, fs)
  | .error e =>
    if !(isNotExist e) || !gen then (.error e, fs)
    else generateAndStore g fs filename

/-- Convert a key-load outcome to the optional key stored on the record. -/
def optionOfExcept : Except Err Signer → Option Signer
  | .ok k => some k
  | .error _ => none

/-- `readConfig`: read and parse the account file from the configuration
directory; then attempt to load the key from the conventional key file,
attaching it only when loading succeeds. -/
def readConfig (fs : FS) (configDir : String) : Except Err UserConfig :=
  match readFileFS fs (filepathJoin configDir accountFile) with
  | .error e => .error e
  | .ok b =>
    match jsonUnmarshalConfig b with
    | .error e => .error e
    | .ok a =>
      match readKey fs (filepathJoin configDir accountKey) with
      | .ok k => .ok { account := a, key := some k }
      | .error _ => .ok { account := a, key := none }

/-- `os.MkdirAll(configDir, 0700)`: idempotent directory creation; modelled
as always succeeding (directory permissions are not part of this model). -/
def mkdirAll (fs : FS) (_dir : String) : Option Err × FS := (none, fs)

/-- `writeConfig`: marshal the record (key excluded), create the directory,
and write the account file (create or replace, mode 0600). -/
def writeConfig (fs : FS) (configDir : String) (uc : UserConfig) :
    Option Err × FS :=
  match mkdirAll fs configDir with
  | (some e, fs') => (some e, fs')
  | (none, fs') => writeFileFS fs' (filepathJoin configDir accountFile) (jsonMarshalConfig uc)

/-- The acceptance indicator computed by `printAccount`. -/
def acceptedIndicator (a : AccountData) : String :=
  if a.AgreedTerms = "" then "no"
  else if a.AgreedTerms = a.CurrentTerms then "yes"
  else a.AgreedTerms

/-- `printAccount`: the five lines handed to the tabwriter (column alignment
is the tabwriter's concern); `fmt.Fprintln` separates operands by a space. -/
def printAccount (a : AccountData) (kp : String) : List String :=
  ["URI:\t " ++ a.URI,
   "Key:\t " ++ kp,
   "Contact:\t " ++ String.intercalate ", " a.Contact,
   "Terms:\t " ++ a.CurrentTerms,
   "Accepted:\t " ++ acceptedIndicator a]

/-- Looking up a path just stored yields its new content. -/
theorem lookupFS_setFS (fs : FS) (path : String) (c : Content) :
    lookupFS (setFS fs path c) path = .file c := by
  simp [setFS, lookupFS]

/-- A concrete RSA key used in witnesses. -/
def kWit : RSAPriv := { n := 35, e := 5, d := 5, p := 5, q := 7 }

/-- A concrete account record used in witnesses. -/
def accWit : AccountData :=
  { URI := "https://ca.example/acct/1", Contact := ["mailto:a@example.org"],
    AgreedTerms := "v1", CurrentTerms := "v1", CA := "https://ca.example/dir" }

/-- Claim C1: `anyKey` attempts key generation exactly when the load failed
because the file does not exist and `gen` is true; on a successful load the
loaded key is returned, and on every other load failure the load error is
surfaced unchanged with the filesystem untouched (no file created). -/
theorem c1_generation_gating (g : Except Err RSAPriv) (fs : FS)
    (filename : String) (gen : Bool) :
    (∀ k, readKey fs filename = .ok k →
      anyKey g fs filename gen = (.ok k, fs)) ∧
    (∀ e, readKey fs filename = .error e →
      (isNotExist e = false ∨ gen = false) →
      anyKey g fs filename gen = (.error e, fs)) ∧
    (∀ e, readKey fs filename = .error e →
      isNotExist e = true → gen = true →
      anyKey g fs filename gen = generateAndStore g fs filename) := by
  refine ⟨?_, ?_, ?_⟩
  · intro k h
    simp [anyKey, h]
  · intro e h hcase
    rcases hcase with h1 | h1 <;> simp [anyKey, h, h1]
  · intro e h h1 h2
    simp [anyKey, h, h1, h2]

/-- Witness for C1: a permission-denied key file surfaces the permission
error unchanged and no generation happens, the filesystem being untouched. -/
theorem c1_generation_gating_witness :
    anyKey (Except.ok kWit) [("k", FileState.denied)] "k" true =
      (.error (.permission "k"), [("k", FileState.denied)]) :=
  (c1_generation_gating (Except.ok kWit) [("k", FileState.denied)] "k"
      true).2.1 (.permission "k") rfl (Or.inl rfl)

/-- Claim C2: encoding an RSA key with `writeKey`'s serialization and then
decoding the result with `readKey`'s decoder yields the key back, equal in
all components. -/
theorem c2_key_roundtrip (path : String) (k : RSAPriv) :
    decodeKeyBytes path (encodeKey k) = .ok (Signer.rsa k) := rfl

/-- Claim C3: the acceptance indicator printed by `printAccount` is "no" when
no terms have been agreed, "yes" when the agreed-terms identifier equals the
current-terms identifier, and otherwise the literal agreed-terms string. -/
theorem c3_accepted_indicator (a : AccountData) (kp : String) :
    (printAccount a kp)[4]? = some ("Accepted:\t " ++ acceptedIndicator a) ∧
    (a.AgreedTerms = "" → acceptedIndicator a = "no") ∧
    (a.AgreedTerms ≠ "" → a.AgreedTerms = a.CurrentTerms →
      acceptedIndicator a = "yes") ∧
    (a.AgreedTerms ≠ "" → a.AgreedTerms ≠ a.CurrentTerms →
      acceptedIndicator a = a.AgreedTerms) := by
  refine ⟨rfl, ?_, ?_, ?_⟩
  · intro h
    simp [acceptedIndicator, h]
  · intro h1 h2
    rw [h2] at h1
    simp [acceptedIndicator, h1, h2]
  · intro h1 h2
    simp [acceptedIndicator, h1, h2]

/-- Witness for C3: a record that agreed to the current terms prints "yes". -/
theorem c3_accepted_indicator_witness :
    acceptedIndicator accWit = "yes" :=
  (c3_accepted_indicator accWit "k").2.2.1 (by decide) rfl

/-- Claim C5: on the generation path of `anyKey`, a failure to persist the
freshly generated key fails the whole operation with the write error. -/
theorem c5_persist_failure (g : Except Err RSAPriv) (fs : FS)
    (filename : String) (k : RSAPriv) (we : Err) (fs' : FS)
    (hg : g = .ok k)
    (hnf : readKey fs filename = .error (.notFound filename))
    (hw : writeKey fs filename k = (some we, fs')) :
    anyKey g fs filename true = (.error we, fs') := by
  simp [anyKey, hnf, isNotExist, generateAndStore, hg, hw]

/-- Witness for C5: generating into a location that cannot be created
(read-only directory) fails with the permission error from the write. -/
theorem c5_persist_failure_witness :
    anyKey (Except.ok kWit) [("p", FileState.absent false)] "p" true =
      (.error (.permission "p"), [("p", FileState.absent false)]) :=
  c5_persist_failure (Except.ok kWit) [("p", FileState.absent false)] "p"
    kWit (.permission "p") [("p", FileState.absent false)] rfl rfl rfl

/-- A concrete record used in round-trip witnesses. -/
def ucWit : UserConfig := { account := accWit, key := none }

/-- Claim C4: writing an account record and reading it back from the same
directory yields an equal record, the key field excluded. -/
theorem c4_config_roundtrip (fs : FS) (dir : String) (uc : UserConfig)
    (fs' : FS) (h : writeConfig fs dir uc = (none, fs')) :
    readConfig fs' dir =
      .ok { account := uc.account,
            key := optionOfExcept (readKey fs' (filepathJoin dir accountKey)) } := by
  simp only [writeConfig, mkdirAll, writeFileFS] at h
  split at h
  · injection h with h1 h2
    subst h2
    simp only [jsonMarshalConfig] at *
    cases hk : readKey (setFS fs (filepathJoin dir accountFile)
        (Content.jsonAccount uc.account)) (filepathJoin dir accountKey) with
    | ok k =>
      simp [readConfig, readFileFS, lookupFS_setFS,
        jsonUnmarshalConfig, hk, optionOfExcept]
    | error e =>
      simp [readConfig, readFileFS, lookupFS_setFS,
        jsonUnmarshalConfig, hk, optionOfExcept]
  · simp at h

/-- Witness for C4: a concrete record written to a fresh filesystem reads
back with the same account fields. -/
theorem c4_config_roundtrip_witness :
    readConfig (writeConfig [] "d" ucWit).2 "d" =
      .ok { account := ucWit.account,
            key := optionOfExcept
              (readKey (writeConfig [] "d" ucWit).2 (filepathJoin "d" accountKey)) } :=
  c4_config_roundtrip [] "d" ucWit (writeConfig [] "d" ucWit).2 rfl

/-- Claim C6: `readConfig` fails only when the account file cannot be read or
parsed; when it reads and parses, the read succeeds and the key is attached
exactly when key loading succeeded. -/
theorem c6_partial_key_failure (fs : FS) (dir : String) :
    (∀ a, readFileFS fs (filepathJoin dir accountFile) = .ok (.jsonAccount a) →
      readConfig fs dir =
        .ok { account := a,
              key := optionOfExcept (readKey fs (filepathJoin dir accountKey)) }) ∧
    (∀ e, readConfig fs dir = .error e →
      readFileFS fs (filepathJoin dir accountFile) = .error e ∨
      ∃ c, readFileFS fs (filepathJoin dir accountFile) = .ok c ∧
        jsonUnmarshalConfig c = .error e) := by
  constructor
  · intro a h
    cases hk : readKey fs (filepathJoin dir accountKey) with
    | ok k => simp [readConfig, h, jsonUnmarshalConfig, hk, optionOfExcept]
    | error e => simp [readConfig, h, jsonUnmarshalConfig, hk, optionOfExcept]
  · intro e h
    cases hr : readFileFS fs (filepathJoin dir accountFile) with
    | error e2 =>
      simp only [readConfig, hr] at h
      injection h with h1
      subst h1
      exact Or.inl rfl
    | ok c =>
      cases hj : jsonUnmarshalConfig c with
      | error e2 =>
        simp only [readConfig, hr, hj] at h
        injection h with h1
        subst h1
        exact Or.inr ⟨c, rfl, hj⟩
      | ok a =>
        cases hk : readKey fs (filepathJoin dir accountKey) with
        | ok k => simp [readConfig, hr, hj, hk] at h
        | error e2 => simp [readConfig, hr, hj, hk] at h

/-- Witness for C6: with a readable, parseable account file and no key file,
the read succeeds and the record carries no key. -/
theorem c6_partial_key_failure_witness :
    readConfig [("account.json", FileState.file (Content.jsonAccount accWit))] "" =
      .ok { account := accWit,
            key := optionOfExcept
              (readKey [("account.json", FileState.file (Content.jsonAccount accWit))]
                (filepathJoin "" accountKey)) } :=
  (c6_partial_key_failure
      [("account.json", FileState.file (Content.jsonAccount accWit))] "").1 accWit rfl

/-- Claim C7: the key decoder fails with a format error when no PEM block is
present, decodes an RSA key under the RSA tag, decodes an EC key under the
EC tag, and fails with an unsupported-type error naming any other tag;
`readKey` applies it to the bytes read from the file. -/
theorem c7_key_decode_dispatch (p : String) :
    (∀ raw, decodeKeyBytes p (.junk raw) = .error (.format p)) ∧
    (∀ a, decodeKeyBytes p (.jsonAccount a) = .error (.format p)) ∧
    (∀ d rest, decodeKeyBytes p (.pemBlock { tag := rsaPrivateKey, bytes := d } rest) =
      Except.map Signer.rsa (parsePKCS1PrivateKey d)) ∧
    (∀ d rest, decodeKeyBytes p (.pemBlock { tag := ecPrivateKey, bytes := d } rest) =
      Except.map Signer.ec (parseECPrivateKey d)) ∧
    (∀ t d rest, t ≠ rsaPrivateKey → t ≠ ecPrivateKey →
      decodeKeyBytes p (.pemBlock { tag := t, bytes := d } rest) =
        .error (.unsupported t)) ∧
    (∀ fs path c, readFileFS fs path = .ok c →
      readKey fs path = decodeKeyBytes path c) := by
  refine ⟨fun raw => rfl, fun a => rfl, fun d rest => rfl, fun d rest => rfl,
    ?_, ?_⟩
  · intro t d rest h1 h2
    simp [decodeKeyBytes, pemDecode, h1, h2]
  · intro fs path c h
    simp [readKey, h]

/-- Witness for C7: an unrecognized tag fails naming that tag. -/
theorem c7_key_decode_dispatch_witness :
    decodeKeyBytes "p"
        (.pemBlock { tag := "FOO", bytes := .junk [] } (.junk [])) =
      .error (.unsupported "FOO") :=
  (c7_key_decode_dispatch "p").2.2.2.2.1 "FOO" (.junk []) (.junk [])
    (by decide) (by decide)

/-- Claim C8: the certificate decoder fails with a format error when no PEM
block is present, fails with an unsupported-type error when the tag is not
the certificate tag, and otherwise parses exactly one certificate from the
first block, independent of any remaining blocks; `readCrt` applies it to
the bytes read from the file. -/
theorem c8_crt_decode_dispatch (p : String) :
    (∀ raw, decodeCrtBytes p (.junk raw) = .error (.format p)) ∧
    (∀ a, decodeCrtBytes p (.jsonAccount a) = .error (.format p)) ∧
    (∀ t d rest, t ≠ x509PublicKey →
      decodeCrtBytes p (.pemBlock { tag := t, bytes := d } rest) =
        .error (.unsupported t)) ∧
    (∀ d rest, decodeCrtBytes p (.pemBlock { tag := x509PublicKey, bytes := d } rest) =
      parseCertificate d) ∧
    (∀ b rest rest', decodeCrtBytes p (.pemBlock b rest) =
      decodeCrtBytes p (.pemBlock b rest')) ∧
    (∀ fs path c, readFileFS fs path = .ok c →
      readCrt fs path = decodeCrtBytes path c) := by
  refine ⟨fun raw => rfl, fun a => rfl, ?_, fun d rest => rfl,
    fun b rest rest' => rfl, ?_⟩
  · intro t d rest h1
    simp [decodeCrtBytes, pemDecode, h1]
  · intro fs path c h
    simp [readCrt, h]

/-- Witness for C8: an unrecognized tag fails naming that tag. -/
theorem c8_crt_decode_dispatch_witness :
    decodeCrtBytes "p"
        (.pemBlock { tag := "FOO", bytes := .junk [] } (.junk [])) =
      .error (.unsupported "FOO") :=
  (c8_crt_decode_dispatch "p").2.2.1 "FOO" (.junk []) (.junk []) (by decide)

/-- Claim C9: on a path with no file, `anyKey` with generation allowed
generates and persists a key on the first call; a second call performs no
generation (its generator outcome is arbitrary) and returns the same key
loaded from the file written by the first call, leaving the filesystem
unchanged. -/
theorem c9_generate_once (fs : FS) (path : String) (k : RSAPriv)
    (g g' : Except Err RSAPriv)
    (habs : lookupFS fs path = .absent true) (hg : g = .ok k) :
    anyKey g fs path true = (.ok (.rsa k), setFS fs path (encodeKey k)) ∧
    anyKey g' (setFS fs path (encodeKey k)) path true =
      (.ok (.rsa k), setFS fs path (encodeKey k)) := by
  constructor
  · simp [anyKey, readKey, readFileFS, habs, isNotExist, generateAndStore, hg,
      writeKey, writeFileFS, openForWrite]
  · simp [anyKey, readKey, readFileFS, lookupFS_setFS, encodeKey, pemEncodeOne,
      decodeKeyBytes, pemDecode, parsePKCS1PrivateKey, marshalPKCS1PrivateKey,
      Except.map]

/-- Witness for C9: two calls on an empty filesystem; the second call's
generator outcome is an error, showing it is never consulted. -/
theorem c9_generate_once_witness :
    anyKey (Except.ok kWit) [] "account.key" true =
      (.ok (.rsa kWit), setFS [] "account.key" (encodeKey kWit)) ∧
    anyKey (Except.error Err.parseX509) (setFS [] "account.key" (encodeKey kWit))
        "account.key" true =
      (.ok (.rsa kWit), setFS [] "account.key" (encodeKey kWit)) :=
  c9_generate_once [] "account.key" kWit (Except.ok kWit)
    (Except.error Err.parseX509) rfl rfl

/-- Claim C10: when the environment variable is empty and the current-user
lookup fails, the configuration directory is the empty string, so the
account and key files resolve to bare (relative) filenames and
`readConfig`/`writeConfig` operate on paths relative to the working
directory. -/
theorem c10_cwd_fallback :
    initConfigDir "" none = "" ∧
    filepathJoin (initConfigDir "" none) accountFile = accountFile ∧
    filepathJoin (initConfigDir "" none) accountKey = accountKey ∧
    isAbsolutePath (filepathJoin (initConfigDir "" none) accountFile) = false ∧
    isAbsolutePath (filepathJoin (initConfigDir "" none) accountKey) = false ∧
    (∀ fs, readConfig fs (initConfigDir "" none) = readConfig fs "") ∧
    (∀ fs uc, writeConfig fs (initConfigDir "" none) uc = writeConfig fs "" uc) := by
  refine ⟨rfl, rfl, rfl, by decide, by decide, fun fs => rfl, fun fs uc => rfl⟩

end Acme
